import Mathlib

/-!
# Verification of the FINANCE-TECH expense-dashboard controller

Shallow embedding of `src/frontend/src/App.js`: the React component's
`useState` slots become an explicit `AppState` record, and every event
handler becomes a pure function from the current state (plus an oracle
describing the outcome of each network request it issues) to the new state
together with the list of HTTP requests it issued.  JavaScript numbers that
flow through `parseFloat` are modelled by `JSNum` (`nan`, signed infinity,
or an exact rational value).
-/

namespace FinanceTech

/-! ## JavaScript number model and `parseFloat` -/

/-- A JavaScript number as far as this program observes it: `NaN`, a signed
infinity, or an ordinary (finite) value modelled as an exact rational. -/
inductive JSNum where
  | nan : JSNum
  | inf (neg : Bool) : JSNum
  | val (q : ℚ) : JSNum
  deriving DecidableEq, Repr

/-- Numeric value of a list of decimal digit characters. -/
def natOfDigits (ds : List Char) : Nat :=
  ds.foldl (fun n c => 10 * n + (c.toNat - 48)) 0

/-- `10 ^ n` as a rational. -/
def pow10 (n : Nat) : ℚ := (10 : ℚ) ^ n

/-- Multiply a rational by `10 ^ e` for a signed exponent `e`. -/
def applyExp (q : ℚ) (e : Int) : ℚ :=
  if 0 ≤ e then q * pow10 e.toNat else q / pow10 (-e).toNat

/-- Whitespace skipped by JavaScript `parseFloat`. -/
def jsWhitespace (c : Char) : Bool :=
  c == ' ' || c == '\t' || c == '\n' || c == '\r'

/-- Digits of an exponent part; an exponent marker not followed by any digit
is ignored (contributes `0`), as in JavaScript's longest-valid-prefix rule. -/
def expDigits (cs : List Char) : Int :=
  (natOfDigits (cs.takeWhile Char.isDigit) : Int)

/-- Exponent after the `e`/`E` marker: optional sign, then digits. -/
def parseExpSign (cs : List Char) : Int :=
  match cs with
  | '-' :: rest => - expDigits rest
  | '+' :: rest => expDigits rest
  | _ => expDigits cs

/-- Optional exponent part of a decimal literal. -/
def parseExp (cs : List Char) : Int :=
  match cs with
  | 'e' :: rest => parseExpSign rest
  | 'E' :: rest => parseExpSign rest
  | _ => 0

/-- JavaScript `parseFloat`: skip leading whitespace, read an optional sign,
then either `Infinity` or the longest prefix of the form
`digits [. digits] [e|E [sign] digits]`; if no digit is found the result is
`NaN`.  Trailing garbage is ignored. -/
def parseFloat (s : String) : JSNum :=
  let cs := s.toList.dropWhile jsWhitespace
  let p : Bool × List Char :=
    match cs with
    | '-' :: rest => (true, rest)
    | '+' :: rest => (false, rest)
    | _ => (false, cs)
  let neg := p.1
  let cs1 := p.2
  if cs1.take 8 = "Infinity".toList then JSNum.inf neg
  else
    let intDs := cs1.takeWhile Char.isDigit
    let rest1 := cs1.dropWhile Char.isDigit
    let q : List Char × List Char :=
      match rest1 with
      | '.' :: r => (r.takeWhile Char.isDigit, r.dropWhile Char.isDigit)
      | _ => ([], rest1)
    let fracDs := q.1
    let rest2 := q.2
    if intDs.isEmpty && fracDs.isEmpty then JSNum.nan
    else
      let mant : ℚ := (natOfDigits intDs : ℚ) + (natOfDigits fracDs : ℚ) / pow10 fracDs.length
      let v := applyExp mant (parseExp rest2)
      JSNum.val (if neg then -v else v)

/-- Decimal digits after the point for the fraction `rem / den`
(`rem < den`), stopping at an exact remainder of zero; `fuel` bounds the
number of emitted digits. -/
def fracDigitsAux : Nat → Nat → Nat → String
  | 0, _, _ => ""
  | fuel + 1, rem, den =>
    if rem = 0 then ""
    else
      String.singleton (Nat.digitChar (rem * 10 / den)) ++
        fracDigitsAux fuel (rem * 10 % den) den

/-- The text-input representation of a JavaScript number, as produced by
`Number.prototype.toString`: integers print without a decimal point, other
values print their decimal expansion. -/
def JSNum.toJsString : JSNum → String
  | .nan => "NaN"
  | .inf neg => if neg then "-Infinity" else "Infinity"
  | .val q =>
    let sign := if q < 0 then "-" else ""
    let a := if q < 0 then -q else q
    let ip := a.num.toNat / a.den
    let rem := a.num.toNat % a.den
    if rem = 0 then sign ++ toString ip
    else sign ++ toString ip ++ "." ++ fracDigitsAux 30 rem a.den

/-! ## Data model -/

/-- An expense record as returned by the backend. -/
structure Expense where
  id : String
  description : String
  amount : JSNum
  category : String
  date : String
  deriving DecidableEq, Repr

/-- Aggregate figures returned by `GET /api/dashboard/stats`. -/
structure DashboardStats where
  total_expenses : ℚ
  total_count : Nat
  average_expense : ℚ
  monthly_total : ℚ
  deriving DecidableEq, Repr

/-- One per-category aggregate returned by `GET /api/dashboard/categories`. -/
structure CategorySummary where
  category : String
  total : ℚ
  count : Nat
  percentage : ℚ
  deriving DecidableEq, Repr

/-- The controlled form fields; every field is the raw text-input string. -/
structure FormData where
  description : String
  amount : String
  category : String
  date : String
  deriving DecidableEq, Repr

/-- The request body built by `handleSubmit`: the form fields with `amount`
coerced to a number by `parseFloat`. -/
structure ExpenseData where
  description : String
  amount : JSNum
  category : String
  date : String
  deriving DecidableEq, Repr

/-- An HTTP request issued by the component. -/
inductive Request where
  | get (url : String) : Request
  | post (url : String) (body : ExpenseData) : Request
  | put (url : String) (body : ExpenseData) : Request
  | delete (url : String) : Request
  deriving DecidableEq, Repr

/-- Whether a request is a DELETE. -/
def isDeleteReq : Request → Bool
  | .delete _ => true
  | _ => false

/-- All `useState` slots of the `App` component. -/
structure AppState where
  expenses : List Expense
  categories : List String
  dashboardStats : Option DashboardStats
  categorySummaries : List CategorySummary
  loading : Bool
  error : String
  showForm : Bool
  editingExpense : Option Expense
  formData : FormData
  deriving DecidableEq, Repr

/-- The default (empty) form, with `date` initialised to today's ISO date,
as in the `useState` initialiser and the two reset sites. -/
def emptyFormData (today : String) : FormData :=
  { description := "", amount := "", category := "", date := today }

/-- The initial component state (`useState` initialisers). -/
def initState (today : String) : AppState :=
  { expenses := []
    categories := []
    dashboardStats := none
    categorySummaries := []
    loading := true
    error := ""
    showForm := false
    editingExpense := none
    formData := emptyFormData today }

/-! ## Data loading

Each fetch function issues one GET; the oracle value `some d` means the
request resolved with payload `d`, `none` means it rejected (the `catch`
branch runs).  Each fetch catches its own error, so a failure only sets the
shared `error` string and leaves its slot untouched. -/

/-- Outcome oracle for the four read requests of one `loadAllData` run. -/
structure LoadEnv where
  expensesRes : Option (List Expense)
  categoriesRes : Option (List String)
  statsRes : Option DashboardStats
  summariesRes : Option (List CategorySummary)
  deriving Repr

/-- `fetchExpenses`: GET `/api/expenses?limit=10`; on success replace the
`expenses` slot, on failure set the localized error message. -/
def fetchExpenses (apiUrl : String) (res : Option (List Expense)) (s : AppState) :
    AppState × List Request :=
  (match res with
   | some data => { s with expenses := data }
   | none => { s with error := "Erro ao carregar despesas" },
   [Request.get (apiUrl ++ "/api/expenses?limit=10")])

/-- `fetchCategories`: GET `/api/categories`. -/
def fetchCategories (apiUrl : String) (res : Option (List String)) (s : AppState) :
    AppState × List Request :=
  (match res with
   | some data => { s with categories := data }
   | none => { s with error := "Erro ao carregar categorias" },
   [Request.get (apiUrl ++ "/api/categories")])

/-- `fetchDashboardStats`: GET `/api/dashboard/stats`. -/
def fetchDashboardStats (apiUrl : String) (res : Option DashboardStats) (s : AppState) :
    AppState × List Request :=
  (match res with
   | some data => { s with dashboardStats := some data }
   | none => { s with error := "Erro ao carregar estatísticas" },
   [Request.get (apiUrl ++ "/api/dashboard/stats")])

/-- `fetchCategorySummaries`: GET `/api/dashboard/categories`. -/
def fetchCategorySummaries (apiUrl : String) (res : Option (List CategorySummary)) (s : AppState) :
    AppState × List Request :=
  (match res with
   | some data => { s with categorySummaries := data }
   | none => { s with error := "Erro ao carregar resumo por categoria" },
   [Request.get (apiUrl ++ "/api/dashboard/categories")])

/-- `loadAllData`: set `loading`, run the four fetches (the `Promise.all`
of the source, sequentialised in list order — each fetch handles its own
outcome independently), then clear `loading`. -/
def loadAllData (apiUrl : String) (env : LoadEnv) (s : AppState) :
    AppState × List Request :=
  let s0 := { s with loading := true }
  let p1 := fetchExpenses apiUrl env.expensesRes s0
  let p2 := fetchCategories apiUrl env.categoriesRes p1.1
  let p3 := fetchDashboardStats apiUrl env.statsRes p2.1
  let p4 := fetchCategorySummaries apiUrl env.summariesRes p3.1
  ({ p4.1 with loading := false }, p1.2 ++ p2.2 ++ p3.2 ++ p4.2)

/-! ## Form handlers -/

/-- `handleInputChange`: write the event value into the named form field. -/
def handleInputChange (name value : String) (fd : FormData) : FormData :=
  if name = "description" then { fd with description := value }
  else if name = "amount" then { fd with amount := value }
  else if name = "category" then { fd with category := value }
  else if name = "date" then { fd with date := value }
  else fd

/-- The `expenseData` object built in `handleSubmit`: spread of the form
data with `amount` replaced by `parseFloat(formData.amount)`. -/
def mkExpenseData (fd : FormData) : ExpenseData :=
  { description := fd.description
    amount := parseFloat fd.amount
    category := fd.category
    date := fd.date }

/-- `handleSubmit`: reject with a validation message when any of
description/amount/category is the empty string (the only falsy string);
otherwise PUT (editing) or POST (creating); on success reset the form,
close the modal, clear the edit target and the error, and reload all data;
on failure set the context-specific error message.  `netOk` is the outcome
of the mutation request, `env` the outcomes of the reload's reads. -/
def handleSubmit (apiUrl today : String) (netOk : Bool) (env : LoadEnv) (s : AppState) :
    AppState × List Request :=
  if s.formData.description = "" ∨ s.formData.amount = "" ∨ s.formData.category = "" then
    ({ s with error := "Todos os campos são obrigatórios" }, [])
  else
    let expenseData := mkExpenseData s.formData
    let req : Request :=
      match s.editingExpense with
      | some e => Request.put (apiUrl ++ "/api/expenses/" ++ e.id) expenseData
      | none => Request.post (apiUrl ++ "/api/expenses") expenseData
    if netOk then
      let s1 := { s with formData := emptyFormData today
                         showForm := false
                         editingExpense := none
                         error := "" }
      let p := loadAllData apiUrl env s1
      (p.1, req :: p.2)
    else
      ({ s with error := match s.editingExpense with
                         | some _ => "Erro ao atualizar despesa"
                         | none => "Erro ao criar despesa" }, [req])

/-- `handleEdit`: remember the expense being edited, pre-fill the form from
its fields (the numeric amount via `toString`), and open the modal. -/
def handleEdit (e : Expense) (s : AppState) : AppState :=
  { s with editingExpense := some e
           formData := { description := e.description
                         amount := e.amount.toJsString
                         category := e.category
                         date := e.date }
           showForm := true }

/-- `handleDelete`: return immediately unless the user confirmed the
prompt; otherwise issue one DELETE, reloading on success and setting the
delete error message on failure. -/
def handleDelete (apiUrl expenseId : String) (confirmed netOk : Bool) (env : LoadEnv)
    (s : AppState) : AppState × List Request :=
  if !confirmed then (s, [])
  else
    let req := Request.delete (apiUrl ++ "/api/expenses/" ++ expenseId)
    if netOk then
      let p := loadAllData apiUrl env s
      (p.1, req :: p.2)
    else
      ({ s with error := "Erro ao excluir despesa" }, [req])

/-- `cancelForm`: close the modal, drop the edit target, reset the form to
defaults and clear the error message. -/
def cancelForm (today : String) (s : AppState) : AppState :=
  { s with showForm := false
           editingExpense := none
           formData := emptyFormData today
           error := "" }

/-! ## Category colors and chart data -/

/-- The fixed `CATEGORY_COLORS` table. -/
def CATEGORY_COLORS : List (String × String) :=
  [("Alimentação", "#ef4444"),
   ("Transporte", "#f97316"),
   ("Lazer", "#eab308"),
   ("Saúde", "#22c55e"),
   ("Educação", "#3b82f6"),
   ("Casa", "#8b5cf6"),
   ("Roupas", "#ec4899"),
   ("Tecnologia", "#06b6d4"),
   ("Outros", "#64748b")]

/-- First-match lookup in an association list (JS property access on the
object literal: `some` the value, `none` for undefined). -/
def lookupTbl : List (String × String) → String → Option String
  | [], _ => none
  | p :: ps, c => if p.1 = c then some p.2 else lookupTbl ps c

/-- JavaScript `x || d` applied to a possibly-undefined string property:
undefined and the empty string are falsy and yield the default. -/
def jsOrElse (v : Option String) (d : String) : String :=
  match v with
  | some x => if x = "" then d else x
  | none => d

/-- `CATEGORY_COLORS[c] || '#64748b'` — the color-lookup expression used at
every rendering site. -/
def catColor (c : String) : String :=
  jsOrElse (lookupTbl CATEGORY_COLORS c) "#64748b"

/-- One dataset of the doughnut chart. -/
structure DoughnutDataset where
  data : List ℚ
  backgroundColor : List String
  borderWidth : Nat
  hoverOffset : Nat
  deriving DecidableEq, Repr

/-- The `doughnutData` chart input built from the category summaries. -/
structure DoughnutData where
  labels : List String
  datasets : List DoughnutDataset
  deriving DecidableEq, Repr

/-- `doughnutData`: labels, totals and colors mapped from the summaries. -/
def doughnutData (s : AppState) : DoughnutData :=
  { labels := s.categorySummaries.map (fun cat => cat.category)
    datasets := [{ data := s.categorySummaries.map (fun cat => cat.total)
                   backgroundColor :=
                     s.categorySummaries.map (fun cat => catColor cat.category)
                   borderWidth := 0
                   hoverOffset := 8 }] }

/-- Dot color in the per-category summary list (same lookup expression). -/
def summaryDotColor (cat : CategorySummary) : String := catColor cat.category

/-- Badge color in the recent-expenses table (same lookup expression). -/
def expenseBadgeColor (e : Expense) : String := catColor e.category

/-! ## The UI as a transition system

Every user-visible event of the component, with the oracle data the
corresponding handler consumes. -/

/-- A UI event. -/
inductive Action where
  | newExpense : Action
  | inputChange (name value : String) : Action
  | edit (e : Expense) : Action
  | cancel (today : String) : Action
  | submit (netOk : Bool) (env : LoadEnv) (today : String) : Action
  | remove (id : String) (confirmed netOk : Bool) (env : LoadEnv) : Action
  | reload (env : LoadEnv) : Action

/-- State transition of the component under one event. -/
def step (apiUrl : String) (s : AppState) : Action → AppState
  | .newExpense => { s with showForm := true }
  | .inputChange n v => { s with formData := handleInputChange n v s.formData }
  | .edit e => handleEdit e s
  | .cancel today => cancelForm today s
  | .submit ok env today => (handleSubmit apiUrl today ok env s).1
  | .remove id c ok env => (handleDelete apiUrl id c ok env s).1
  | .reload env => (loadAllData apiUrl env s).1

/-- The modal invariant: whenever the modal is closed, no edit target is
retained, so reopening via the header button is always in create mode. -/
def ModalInv (s : AppState) : Prop :=
  s.showForm = false → s.editingExpense = none

/-! ## Helper lemmas -/

/-- Field-wise characterisation of one `loadAllData` run: each slot is
replaced exactly when its own request succeeded, the error message is that
of the last failing fetch in sequence (unchanged when all succeed), the
modal and form state are untouched, and exactly the four read requests are
issued. -/
theorem loadAllData_spec (apiUrl : String) (env : LoadEnv) (s : AppState) :
    (loadAllData apiUrl env s).1.expenses =
      (match env.expensesRes with | some d => d | none => s.expenses) ∧
    (loadAllData apiUrl env s).1.categories =
      (match env.categoriesRes with | some d => d | none => s.categories) ∧
    (loadAllData apiUrl env s).1.dashboardStats =
      (match env.statsRes with | some d => some d | none => s.dashboardStats) ∧
    (loadAllData apiUrl env s).1.categorySummaries =
      (match env.summariesRes with | some d => d | none => s.categorySummaries) ∧
    (loadAllData apiUrl env s).1.error =
      (if env.summariesRes = none then "Erro ao carregar resumo por categoria"
       else if env.statsRes = none then "Erro ao carregar estatísticas"
       else if env.categoriesRes = none then "Erro ao carregar categorias"
       else if env.expensesRes = none then "Erro ao carregar despesas"
       else s.error) ∧
    (loadAllData apiUrl env s).1.loading = false ∧
    (loadAllData apiUrl env s).1.showForm = s.showForm ∧
    (loadAllData apiUrl env s).1.editingExpense = s.editingExpense ∧
    (loadAllData apiUrl env s).1.formData = s.formData ∧
    (loadAllData apiUrl env s).2 =
      [Request.get (apiUrl ++ "/api/expenses?limit=10"),
       Request.get (apiUrl ++ "/api/categories"),
       Request.get (apiUrl ++ "/api/dashboard/stats"),
       Request.get (apiUrl ++ "/api/dashboard/categories")] := by
  obtain ⟨e, c, st, su⟩ := env
  cases e <;> cases c <;> cases st <;> cases su <;>
    simp [loadAllData, fetchExpenses, fetchCategories, fetchDashboardStats,
      fetchCategorySummaries]

/-- Unfolding of `handleSubmit` once validation has passed: PUT when an
edit is in progress, POST otherwise; on success the reload runs on the
reset-and-cleared state, on failure only the error message changes. -/
theorem handleSubmit_valid_eq (apiUrl today : String) (netOk : Bool) (env : LoadEnv)
    (s : AppState)
    (h : ¬(s.formData.description = "" ∨ s.formData.amount = "" ∨ s.formData.category = "")) :
    handleSubmit apiUrl today netOk env s =
      if netOk then
        ((loadAllData apiUrl env
            { s with formData := emptyFormData today, showForm := false,
                     editingExpense := none, error := "" }).1,
         (match s.editingExpense with
          | some e => Request.put (apiUrl ++ "/api/expenses/" ++ e.id) (mkExpenseData s.formData)
          | none => Request.post (apiUrl ++ "/api/expenses") (mkExpenseData s.formData)) ::
           (loadAllData apiUrl env
             { s with formData := emptyFormData today, showForm := false,
                      editingExpense := none, error := "" }).2)
      else
        ({ s with error := match s.editingExpense with
                           | some _ => "Erro ao atualizar despesa"
                           | none => "Erro ao criar despesa" },
         [match s.editingExpense with
          | some e => Request.put (apiUrl ++ "/api/expenses/" ++ e.id) (mkExpenseData s.formData)
          | none => Request.post (apiUrl ++ "/api/expenses") (mkExpenseData s.formData)]) := by
  unfold handleSubmit
  rw [if_neg h]

/-- A key absent from an association table makes the lookup return `none`. -/
theorem lookupTbl_eq_none (tbl : List (String × String)) (c : String)
    (h : ∀ p ∈ tbl, p.1 ≠ c) : lookupTbl tbl c = none := by
  induction tbl with
  | nil => rfl
  | cons p ps ih =>
    simp only [lookupTbl]
    rw [if_neg (h p (List.mem_cons_self p ps))]
    exact ih fun q hq => h q (List.mem_cons_of_mem p hq)

/-! ## Concrete sample data used by the witnesses -/

/-- A sample expense record. -/
def sampleExpense : Expense :=
  { id := "7", description := "Almoço", amount := JSNum.val (51 / 2 : ℚ),
    category := "Alimentação", date := "2025-01-15" }

/-- Sample dashboard statistics. -/
def sampleStats : DashboardStats :=
  { total_expenses := 100, total_count := 4, average_expense := 25, monthly_total := 40 }

/-- A reload oracle in which all four reads succeed. -/
def envOk : LoadEnv :=
  { expensesRes := some [sampleExpense], categoriesRes := some ["Casa"],
    statsRes := some sampleStats, summariesRes := some [] }

/-- A reload oracle in which all four reads fail. -/
def envFail : LoadEnv :=
  { expensesRes := none, categoriesRes := none, statsRes := none, summariesRes := none }

/-! ## Claims -/

/-- C1: a submission with an empty description, amount, or category sets
the required-fields validation message, issues no network request at all
(in particular no POST and no PUT), and leaves `formData`, `showForm` and
`editingExpense` unchanged. -/
theorem C1_validation_rejects_without_request (apiUrl today : String) (netOk : Bool)
    (env : LoadEnv) (s : AppState)
    (h : s.formData.description = "" ∨ s.formData.amount = "" ∨ s.formData.category = "") :
    (handleSubmit apiUrl today netOk env s).1.error = "Todos os campos são obrigatórios" ∧
    (handleSubmit apiUrl today netOk env s).2 = [] ∧
    (handleSubmit apiUrl today netOk env s).1.formData = s.formData ∧
    (handleSubmit apiUrl today netOk env s).1.showForm = s.showForm ∧
    (handleSubmit apiUrl today netOk env s).1.editingExpense = s.editingExpense := by
  unfold handleSubmit
  rw [if_pos h]
  exact ⟨rfl, rfl, rfl, rfl, rfl⟩

/-- State with an empty description used to exercise C1. -/
def invalidFormState : AppState :=
  { initState "2025-01-15" with
      formData := { description := "", amount := "5", category := "Casa",
                    date := "2025-01-15" } }

/-- Witness for C1 at a concrete invalid submission. -/
theorem C1_validation_rejects_without_request_witness :
    (invalidFormState.formData.description = "" ∨ invalidFormState.formData.amount = "" ∨
      invalidFormState.formData.category = "") ∧
    ((handleSubmit "h" "2025-01-15" true envOk invalidFormState).1.error =
        "Todos os campos são obrigatórios" ∧
     (handleSubmit "h" "2025-01-15" true envOk invalidFormState).2 = [] ∧
     (handleSubmit "h" "2025-01-15" true envOk invalidFormState).1.formData =
        invalidFormState.formData ∧
     (handleSubmit "h" "2025-01-15" true envOk invalidFormState).1.showForm =
        invalidFormState.showForm ∧
     (handleSubmit "h" "2025-01-15" true envOk invalidFormState).1.editingExpense =
        invalidFormState.editingExpense) :=
  ⟨Or.inl rfl,
   C1_validation_rejects_without_request "h" "2025-01-15" true envOk invalidFormState
     (Or.inl rfl)⟩

/-- C2: a valid submission whose mutation request succeeds resets the form
to defaults (empty fields, date = today), closes the modal, clears the edit
target, clears the error, and reloads: the final state is exactly
`loadAllData` applied to the cleared state, and the issued requests are the
PUT (keyed by the edited id) or POST followed by the four read requests. -/
theorem C2_success_resets_and_reloads (apiUrl today : String) (env : LoadEnv) (s : AppState)
    (h : ¬(s.formData.description = "" ∨ s.formData.amount = "" ∨ s.formData.category = "")) :
    (handleSubmit apiUrl today true env s).1.formData = emptyFormData today ∧
    (handleSubmit apiUrl today true env s).1.showForm = false ∧
    (handleSubmit apiUrl today true env s).1.editingExpense = none ∧
    (handleSubmit apiUrl today true env s).1 =
      (loadAllData apiUrl env
        { s with formData := emptyFormData today, showForm := false,
                 editingExpense := none, error := "" }).1 ∧
    (handleSubmit apiUrl today true env s).2 =
      (match s.editingExpense with
       | some e => Request.put (apiUrl ++ "/api/expenses/" ++ e.id) (mkExpenseData s.formData)
       | none => Request.post (apiUrl ++ "/api/expenses") (mkExpenseData s.formData)) ::
      [Request.get (apiUrl ++ "/api/expenses?limit=10"),
       Request.get (apiUrl ++ "/api/categories"),
       Request.get (apiUrl ++ "/api/dashboard/stats"),
       Request.get (apiUrl ++ "/api/dashboard/categories")] := by
  rw [handleSubmit_valid_eq apiUrl today true env s h, if_pos rfl]
  obtain ⟨-, -, -, -, -, -, hShow, hEdit, hForm, hReqs⟩ :=
    loadAllData_spec apiUrl env
      { s with formData := emptyFormData today, showForm := false,
               editingExpense := none, error := "" }
  refine ⟨?_, ?_, ?_, rfl, ?_⟩
  · rw [hForm]
  · rw [hShow]
  · rw [hEdit]
  · rw [hReqs]

/-- State with a valid filled form (create mode) used to exercise C2. -/
def validFormState : AppState :=
  { initState "2025-01-15" with
      formData := { description := "Almoço", amount := "25.5", category := "Alimentação",
                    date := "2025-01-15" } }

/-- Witness for C2 at a concrete valid create submission. -/
theorem C2_success_resets_and_reloads_witness :
    ¬(validFormState.formData.description = "" ∨ validFormState.formData.amount = "" ∨
        validFormState.formData.category = "") ∧
    ((handleSubmit "h" "2025-01-15" true envOk validFormState).1.formData =
        emptyFormData "2025-01-15" ∧
     (handleSubmit "h" "2025-01-15" true envOk validFormState).1.showForm = false ∧
     (handleSubmit "h" "2025-01-15" true envOk validFormState).1.editingExpense = none ∧
     (handleSubmit "h" "2025-01-15" true envOk validFormState).1 =
       (loadAllData "h" envOk
         { validFormState with formData := emptyFormData "2025-01-15", showForm := false,
                               editingExpense := none, error := "" }).1 ∧
     (handleSubmit "h" "2025-01-15" true envOk validFormState).2 =
       (match validFormState.editingExpense with
        | some e => Request.put ("h" ++ "/api/expenses/" ++ e.id)
            (mkExpenseData validFormState.formData)
        | none => Request.post ("h" ++ "/api/expenses")
            (mkExpenseData validFormState.formData)) ::
       [Request.get ("h" ++ "/api/expenses?limit=10"),
        Request.get ("h" ++ "/api/categories"),
        Request.get ("h" ++ "/api/dashboard/stats"),
        Request.get ("h" ++ "/api/dashboard/categories")]) :=
  ⟨by decide,
   C2_success_resets_and_reloads "h" "2025-01-15" envOk validFormState (by decide)⟩

/-- C3: a valid submission whose mutation request fails sets the
context-specific error message (update failure while editing, create
failure otherwise) and leaves `formData`, `showForm` and `editingExpense`
unchanged, so the modal stays open with the user's input intact. -/
theorem C3_failure_keeps_form_intact (apiUrl today : String) (env : LoadEnv) (s : AppState)
    (h : ¬(s.formData.description = "" ∨ s.formData.amount = "" ∨ s.formData.category = "")) :
    (handleSubmit apiUrl today false env s).1.error =
      (match s.editingExpense with
       | some _ => "Erro ao atualizar despesa"
       | none => "Erro ao criar despesa") ∧
    (handleSubmit apiUrl today false env s).1.formData = s.formData ∧
    (handleSubmit apiUrl today false env s).1.showForm = s.showForm ∧
    (handleSubmit apiUrl today false env s).1.editingExpense = s.editingExpense := by
  rw [handleSubmit_valid_eq apiUrl today false env s h]
  exact ⟨rfl, rfl, rfl, rfl⟩

/-- Witness for C3: a concrete valid edit submission whose PUT fails. -/
theorem C3_failure_keeps_form_intact_witness :
    ¬((({ validFormState with editingExpense := some sampleExpense } :
          AppState)).formData.description = "" ∨
      (({ validFormState with editingExpense := some sampleExpense } :
          AppState)).formData.amount = "" ∨
      (({ validFormState with editingExpense := some sampleExpense } :
          AppState)).formData.category = "") ∧
    ((handleSubmit "h" "2025-01-15" false envOk
        { validFormState with editingExpense := some sampleExpense }).1.error =
       "Erro ao atualizar despesa" ∧
     (handleSubmit "h" "2025-01-15" false envOk
        { validFormState with editingExpense := some sampleExpense }).1.formData =
       validFormState.formData ∧
     (handleSubmit "h" "2025-01-15" false envOk
        { validFormState with editingExpense := some sampleExpense }).1.showForm =
       validFormState.showForm) :=
  ⟨by decide,
   by
     have hmain := C3_failure_keeps_form_intact "h" "2025-01-15" envOk
       { validFormState with editingExpense := some sampleExpense } (by decide)
     exact ⟨hmain.1, hmain.2.1, hmain.2.2.1⟩⟩

/-- C4: `handleDelete` issues a DELETE exactly when the prompt is
confirmed, and then exactly one; without confirmation it returns the state
untouched and issues nothing; with confirmation it reloads all data on
success and sets the delete error message on failure. -/
theorem C4_delete_requires_confirmation (apiUrl expenseId : String) (confirmed netOk : Bool)
    (env : LoadEnv) (s : AppState) :
    (((handleDelete apiUrl expenseId confirmed netOk env s).2.filter isDeleteReq).length =
      if confirmed then 1 else 0) ∧
    (confirmed = false → handleDelete apiUrl expenseId confirmed netOk env s = (s, [])) ∧
    (confirmed = true → netOk = true →
      handleDelete apiUrl expenseId confirmed netOk env s =
        ((loadAllData apiUrl env s).1,
         Request.delete (apiUrl ++ "/api/expenses/" ++ expenseId) ::
           (loadAllData apiUrl env s).2)) ∧
    (confirmed = true → netOk = false →
      handleDelete apiUrl expenseId confirmed netOk env s =
        ({ s with error := "Erro ao excluir despesa" },
         [Request.delete (apiUrl ++ "/api/expenses/" ++ expenseId)])) := by
  obtain ⟨-, -, -, -, -, -, -, -, -, hReqs⟩ := loadAllData_spec apiUrl env s
  cases confirmed <;> cases netOk <;>
    simp [handleDelete, isDeleteReq, hReqs, List.filter]

/-- Witness for C4: a confirmed delete whose request fails, next to an
unconfirmed delete that issues nothing. -/
theorem C4_delete_requires_confirmation_witness :
    (((handleDelete "h" "7" true false envOk (initState "2025-01-15")).2.filter
        isDeleteReq).length = 1) ∧
    (handleDelete "h" "7" false false envOk (initState "2025-01-15")) =
      (initState "2025-01-15", []) ∧
    (handleDelete "h" "7" true false envOk (initState "2025-01-15")) =
      ({ initState "2025-01-15" with error := "Erro ao excluir despesa" },
       [Request.delete ("h" ++ "/api/expenses/" ++ "7")]) :=
  ⟨(C4_delete_requires_confirmation "h" "7" true false envOk (initState "2025-01-15")).1.trans
     rfl,
   (C4_delete_requires_confirmation "h" "7" false false envOk (initState "2025-01-15")).2.1 rfl,
   (C4_delete_requires_confirmation "h" "7" true false envOk
      (initState "2025-01-15")).2.2.2 rfl rfl⟩

/-- C5: the four reads of `loadAllData` fail independently: each slot is
replaced exactly when its own request succeeds, and in every run where one
read fails while the other three succeed, the failing slot keeps its
previous value and contributes its own localized error message while the
three others are replaced by their fetched results. -/
theorem C5_fetch_failures_are_independent (apiUrl : String) (env : LoadEnv) (s : AppState) :
    ((loadAllData apiUrl env s).1.expenses =
      (match env.expensesRes with | some d => d | none => s.expenses)) ∧
    ((loadAllData apiUrl env s).1.categories =
      (match env.categoriesRes with | some d => d | none => s.categories)) ∧
    ((loadAllData apiUrl env s).1.dashboardStats =
      (match env.statsRes with | some d => some d | none => s.dashboardStats)) ∧
    ((loadAllData apiUrl env s).1.categorySummaries =
      (match env.summariesRes with | some d => d | none => s.categorySummaries)) ∧
    (∀ cs st su, env = ⟨none, some cs, some st, some su⟩ →
      (loadAllData apiUrl env s).1.expenses = s.expenses ∧
      (loadAllData apiUrl env s).1.error = "Erro ao carregar despesas" ∧
      (loadAllData apiUrl env s).1.categories = cs ∧
      (loadAllData apiUrl env s).1.dashboardStats = some st ∧
      (loadAllData apiUrl env s).1.categorySummaries = su) ∧
    (∀ ex st su, env = ⟨some ex, none, some st, some su⟩ →
      (loadAllData apiUrl env s).1.categories = s.categories ∧
      (loadAllData apiUrl env s).1.error = "Erro ao carregar categorias" ∧
      (loadAllData apiUrl env s).1.expenses = ex ∧
      (loadAllData apiUrl env s).1.dashboardStats = some st ∧
      (loadAllData apiUrl env s).1.categorySummaries = su) ∧
    (∀ ex cs su, env = ⟨some ex, some cs, none, some su⟩ →
      (loadAllData apiUrl env s).1.dashboardStats = s.dashboardStats ∧
      (loadAllData apiUrl env s).1.error = "Erro ao carregar estatísticas" ∧
      (loadAllData apiUrl env s).1.expenses = ex ∧
      (loadAllData apiUrl env s).1.categories = cs ∧
      (loadAllData apiUrl env s).1.categorySummaries = su) ∧
    (∀ ex cs st, env = ⟨some ex, some cs, some st, none⟩ →
      (loadAllData apiUrl env s).1.categorySummaries = s.categorySummaries ∧
      (loadAllData apiUrl env s).1.error = "Erro ao carregar resumo por categoria" ∧
      (loadAllData apiUrl env s).1.expenses = ex ∧
      (loadAllData apiUrl env s).1.categories = cs ∧
      (loadAllData apiUrl env s).1.dashboardStats = some st) := by
  obtain ⟨h1, h2, h3, h4, h5, -⟩ := loadAllData_spec apiUrl env s
  refine ⟨h1, h2, h3, h4, ?_, ?_, ?_, ?_⟩
  · rintro a b c rfl
    simp at h1 h2 h3 h4 h5
    exact ⟨h1, h5, h2, h3, h4⟩
  · rintro a b c rfl
    simp at h1 h2 h3 h4 h5
    exact ⟨h2, h5, h1, h3, h4⟩
  · rintro a b c rfl
    simp at h1 h2 h3 h4 h5
    exact ⟨h3, h5, h1, h2, h4⟩
  · rintro a b c rfl
    simp at h1 h2 h3 h4 h5
    exact ⟨h4, h5, h1, h2, h3⟩

/-- Witness for C5: only the expenses read fails; its slot stays stale and
its message is reported while the other three slots update. -/
theorem C5_fetch_failures_are_independent_witness :
    (loadAllData "h" ⟨none, some ["Casa"], some sampleStats, some []⟩
        (initState "2025-01-15")).1.expenses = (initState "2025-01-15").expenses ∧
    (loadAllData "h" ⟨none, some ["Casa"], some sampleStats, some []⟩
        (initState "2025-01-15")).1.error = "Erro ao carregar despesas" ∧
    (loadAllData "h" ⟨none, some ["Casa"], some sampleStats, some []⟩
        (initState "2025-01-15")).1.categories = ["Casa"] ∧
    (loadAllData "h" ⟨none, some ["Casa"], some sampleStats, some []⟩
        (initState "2025-01-15")).1.dashboardStats = some sampleStats ∧
    (loadAllData "h" ⟨none, some ["Casa"], some sampleStats, some []⟩
        (initState "2025-01-15")).1.categorySummaries = [] :=
  (C5_fetch_failures_are_independent "h" ⟨none, some ["Casa"], some sampleStats, some []⟩
    (initState "2025-01-15")).2.2.2.2.1 ["Casa"] sampleStats [] rfl

/-- The state after a submission that fails validation: only the error
message changes. -/
theorem handleSubmit_invalid_fst (apiUrl today : String) (netOk : Bool) (env : LoadEnv)
    (s : AppState)
    (hv : s.formData.description = "" ∨ s.formData.amount = "" ∨ s.formData.category = "") :
    (handleSubmit apiUrl today netOk env s).1 =
      { s with error := "Todos os campos são obrigatórios" } := by
  unfold handleSubmit
  rw [if_pos hv]

/-- The state after a valid submission whose request fails: only the error
message changes. -/
theorem handleSubmit_fail_fst (apiUrl today : String) (env : LoadEnv) (s : AppState)
    (hv : ¬(s.formData.description = "" ∨ s.formData.amount = "" ∨ s.formData.category = "")) :
    (handleSubmit apiUrl today false env s).1 =
      { s with error := match s.editingExpense with
                        | some _ => "Erro ao atualizar despesa"
                        | none => "Erro ao criar despesa" } := by
  rw [handleSubmit_valid_eq apiUrl today false env s hv]
  rfl

/-- The state after a valid submission whose request succeeds: the reload
run on the reset-and-cleared state. -/
theorem handleSubmit_ok_fst (apiUrl today : String) (env : LoadEnv) (s : AppState)
    (hv : ¬(s.formData.description = "" ∨ s.formData.amount = "" ∨ s.formData.category = "")) :
    (handleSubmit apiUrl today true env s).1 =
      (loadAllData apiUrl env
        { s with formData := emptyFormData today, showForm := false,
                 editingExpense := none, error := "" }).1 := by
  rw [handleSubmit_valid_eq apiUrl today true env s hv]
  rfl

/-- Case analysis of the state after `handleDelete`. -/
theorem handleDelete_fst (apiUrl expenseId : String) (confirmed netOk : Bool) (env : LoadEnv)
    (s : AppState) :
    (handleDelete apiUrl expenseId confirmed netOk env s).1 =
      if confirmed then
        (if netOk then (loadAllData apiUrl env s).1
         else { s with error := "Erro ao excluir despesa" })
      else s := by
  cases confirmed <;> cases netOk <;> rfl

/-- `loadAllData` never touches the modal state or the form fields. -/
theorem loadAllData_modal_frame (apiUrl : String) (env : LoadEnv) (s : AppState) :
    (loadAllData apiUrl env s).1.showForm = s.showForm ∧
    (loadAllData apiUrl env s).1.editingExpense = s.editingExpense ∧
    (loadAllData apiUrl env s).1.formData = s.formData := by
  obtain ⟨-, -, -, -, -, -, hS, hE, hF, -⟩ := loadAllData_spec apiUrl env s
  exact ⟨hS, hE, hF⟩

/-- Every event either drops the edit target, opens the modal, or leaves
both modal fields unchanged — the case split behind the modal invariant. -/
theorem step_modal_char (apiUrl : String) (s : AppState) (a : Action) :
    (step apiUrl s a).editingExpense = none ∨
    (step apiUrl s a).showForm = true ∨
    ((step apiUrl s a).showForm = s.showForm ∧
     (step apiUrl s a).editingExpense = s.editingExpense) := by
  cases a with
  | newExpense => exact Or.inr (Or.inl rfl)
  | inputChange n v => exact Or.inr (Or.inr ⟨rfl, rfl⟩)
  | edit e => exact Or.inr (Or.inl rfl)
  | cancel t => exact Or.inl rfl
  | reload env =>
    exact Or.inr (Or.inr ⟨(loadAllData_modal_frame apiUrl env s).1,
      (loadAllData_modal_frame apiUrl env s).2.1⟩)
  | submit ok env t =>
    by_cases hv : s.formData.description = "" ∨ s.formData.amount = "" ∨
        s.formData.category = ""
    · simp only [step]
      refine Or.inr (Or.inr ⟨?_, ?_⟩)
      · rw [handleSubmit_invalid_fst apiUrl t ok env s hv]
      · rw [handleSubmit_invalid_fst apiUrl t ok env s hv]
    · cases ok with
      | false =>
        simp only [step]
        refine Or.inr (Or.inr ⟨?_, ?_⟩)
        · rw [handleSubmit_fail_fst apiUrl t env s hv]
        · rw [handleSubmit_fail_fst apiUrl t env s hv]
      | true =>
        simp only [step]
        refine Or.inl ?_
        rw [handleSubmit_ok_fst apiUrl t env s hv,
          (loadAllData_modal_frame apiUrl env _).2.1]
  | remove eid c ok env =>
    simp only [step]
    rw [handleDelete_fst]
    cases c with
    | false => exact Or.inr (Or.inr ⟨rfl, rfl⟩)
    | true =>
      cases ok with
      | false => exact Or.inr (Or.inr ⟨rfl, rfl⟩)
      | true =>
        exact Or.inr (Or.inr ⟨(loadAllData_modal_frame apiUrl env s).1,
          (loadAllData_modal_frame apiUrl env s).2.1⟩)

/-- C6: the modal form obeys its state machine.  Initially closed in
create mode; the closed-mode invariant (closed implies no retained edit
target) is preserved by every event, so the header button always opens in
create mode; the edit action opens with the target recorded and the form
prefilled; cancel closes; a submit closes exactly when it is valid and its
request succeeds (failed submits leave `showForm` as it was); and no other
event (typing, reloads, deletes) changes `showForm` or `editingExpense`.
The modal is a single boolean `showForm`, so at most one instance exists
by construction. -/
theorem C6_modal_state_machine (apiUrl : String) (s : AppState) :
    (∀ today, ModalInv (initState today)) ∧
    (ModalInv s → ∀ a, ModalInv (step apiUrl s a)) ∧
    (s.showForm = false → ModalInv s →
      (step apiUrl s Action.newExpense).showForm = true ∧
      (step apiUrl s Action.newExpense).editingExpense = none) ∧
    (∀ e, (step apiUrl s (Action.edit e)).showForm = true ∧
      (step apiUrl s (Action.edit e)).editingExpense = some e ∧
      (step apiUrl s (Action.edit e)).formData =
        { description := e.description, amount := e.amount.toJsString,
          category := e.category, date := e.date }) ∧
    (∀ today, (step apiUrl s (Action.cancel today)).showForm = false) ∧
    (∀ ok env today, (step apiUrl s (Action.submit ok env today)).showForm =
      if (s.formData.description = "" ∨ s.formData.amount = "" ∨
            s.formData.category = "") ∨ ok = false
      then s.showForm else false) ∧
    (∀ n v, (step apiUrl s (Action.inputChange n v)).showForm = s.showForm ∧
      (step apiUrl s (Action.inputChange n v)).editingExpense = s.editingExpense) ∧
    (∀ env, (step apiUrl s (Action.reload env)).showForm = s.showForm ∧
      (step apiUrl s (Action.reload env)).editingExpense = s.editingExpense) ∧
    (∀ eid c ok env, (step apiUrl s (Action.remove eid c ok env)).showForm = s.showForm ∧
      (step apiUrl s (Action.remove eid c ok env)).editingExpense = s.editingExpense) := by
  refine ⟨fun _ _ => rfl, ?_, ?_, fun e => ⟨rfl, rfl, rfl⟩, fun _ => rfl, ?_,
    fun n v => ⟨rfl, rfl⟩, ?_, ?_⟩
  · intro hInv a hc
    rcases step_modal_char apiUrl s a with h | h | ⟨h1, h2⟩
    · exact h
    · rw [h] at hc
      exact absurd hc (by simp)
    · rw [h2]
      exact hInv (h1 ▸ hc)
  · intro hclosed hInv
    exact ⟨rfl, hInv hclosed⟩
  · intro ok env today
    by_cases hv : s.formData.description = "" ∨ s.formData.amount = "" ∨
        s.formData.category = ""
    · rw [if_pos (Or.inl hv)]
      simp only [step]
      rw [handleSubmit_invalid_fst apiUrl today ok env s hv]
    · cases ok with
      | false =>
        rw [if_pos (Or.inr rfl)]
        simp only [step]
        rw [handleSubmit_fail_fst apiUrl today env s hv]
      | true =>
        rw [if_neg (by simp [hv])]
        simp only [step]
        rw [handleSubmit_ok_fst apiUrl today env s hv]
        exact (loadAllData_modal_frame apiUrl env _).1
  · intro env
    exact ⟨(loadAllData_modal_frame apiUrl env s).1,
      (loadAllData_modal_frame apiUrl env s).2.1⟩
  · intro eid c ok env
    constructor
    · simp only [step]
      rw [handleDelete_fst]
      cases c with
      | false => rfl
      | true =>
        cases ok with
        | false => rfl
        | true => exact (loadAllData_modal_frame apiUrl env s).1
    · simp only [step]
      rw [handleDelete_fst]
      cases c with
      | false => rfl
      | true =>
        cases ok with
        | false => rfl
        | true => exact (loadAllData_modal_frame apiUrl env s).2.1

/-- Witness for C6: from the initial (closed) state, the header button
opens the modal in create mode, and the invariant survives a cancel. -/
theorem C6_modal_state_machine_witness :
    ((step "h" (initState "2025-01-15") Action.newExpense).showForm = true ∧
     (step "h" (initState "2025-01-15") Action.newExpense).editingExpense = none) ∧
    ModalInv (step "h" (initState "2025-01-15") (Action.cancel "2025-01-15")) :=
  ⟨(C6_modal_state_machine "h" (initState "2025-01-15")).2.2.1 rfl fun _ => rfl,
   (C6_modal_state_machine "h" (initState "2025-01-15")).2.1 (fun _ => rfl)
     (Action.cancel "2025-01-15")⟩

/-- C7: `handleEdit` records the expense being edited, pre-fills the form
with its description, category, and date unchanged and with its numeric
amount converted to its text-input string representation, and opens the
modal.  Everything else in the state is untouched. -/
theorem C7_edit_prefills_form (s : AppState) (e : Expense) :
    (handleEdit e s).editingExpense = some e ∧
    (handleEdit e s).showForm = true ∧
    (handleEdit e s).formData.description = e.description ∧
    (handleEdit e s).formData.amount = e.amount.toJsString ∧
    (handleEdit e s).formData.category = e.category ∧
    (handleEdit e s).formData.date = e.date ∧
    (handleEdit e s).expenses = s.expenses ∧
    (handleEdit e s).error = s.error :=
  ⟨rfl, rfl, rfl, rfl, rfl, rfl, rfl, rfl⟩

/-- C8: category colors are a pure lookup in the fixed `CATEGORY_COLORS`
table: every label in the table maps to its listed color, every other
label falls back to the default gray, and the chart, the summary list and
the expense table all apply this same lookup-with-fallback. -/
theorem C8_category_color_lookup (s : AppState) :
    (∀ p ∈ CATEGORY_COLORS, catColor p.1 = p.2) ∧
    (∀ c, (∀ p ∈ CATEGORY_COLORS, p.1 ≠ c) → catColor c = "#64748b") ∧
    ((doughnutData s).datasets.map (fun d => d.backgroundColor) =
      [s.categorySummaries.map (fun cat => catColor cat.category)]) ∧
    (∀ cat, summaryDotColor cat = catColor cat.category) ∧
    (∀ e, expenseBadgeColor e = catColor e.category) := by
  refine ⟨by decide, ?_, rfl, fun _ => rfl, fun _ => rfl⟩
  intro c hc
  unfold catColor
  rw [lookupTbl_eq_none CATEGORY_COLORS c hc]
  rfl

/-- Witness for C8: a mapped label gets its table color, an unmapped label
gets the default gray. -/
theorem C8_category_color_lookup_witness :
    catColor "Casa" = "#8b5cf6" ∧ catColor "Pets" = "#64748b" :=
  ⟨(C8_category_color_lookup (initState "2025-01-15")).1 ("Casa", "#8b5cf6") (by decide),
   (C8_category_color_lookup (initState "2025-01-15")).2.1 "Pets" (by decide)⟩

/-- A run of `loadAllData` starting from a non-empty error leaves the
error non-empty: a failing fetch overwrites it with its own message and an
all-success run leaves it alone — no successful load ever clears it. -/
theorem loadAllData_error_ne (apiUrl : String) (env : LoadEnv) (s : AppState)
    (hne : s.error ≠ "") : (loadAllData apiUrl env s).1.error ≠ "" := by
  obtain ⟨-, -, -, -, hErr, -⟩ := loadAllData_spec apiUrl env s
  rw [hErr]
  split_ifs <;> first | decide | exact hne

/-- C9: the shared error string is never cleared by a successful read: an
all-success `loadAllData` leaves it exactly as it was (failures simply
overwrite it, last failing fetch winning), and the only events that reset
a non-empty error to the empty string are cancelling the form and a valid
submission whose request succeeds. -/
theorem C9_error_cleared_only_by_submit_or_cancel (apiUrl : String) (env : LoadEnv)
    (s : AppState) :
    (env.expensesRes ≠ none → env.categoriesRes ≠ none → env.statsRes ≠ none →
      env.summariesRes ≠ none → (loadAllData apiUrl env s).1.error = s.error) ∧
    (∀ a : Action, s.error ≠ "" → (step apiUrl s a).error = "" →
      (∃ today, a = Action.cancel today) ∨
      (∃ env2 today, a = Action.submit true env2 today)) := by
  constructor
  · intro h1 h2 h3 h4
    obtain ⟨-, -, -, -, hErr, -⟩ := loadAllData_spec apiUrl env s
    rw [hErr, if_neg h4, if_neg h3, if_neg h2, if_neg h1]
  · intro a hne hz
    cases a with
    | newExpense => exact absurd hz hne
    | inputChange n v => exact absurd hz hne
    | edit e => exact absurd hz hne
    | cancel t => exact Or.inl ⟨t, rfl⟩
    | reload env2 =>
      exact absurd hz (loadAllData_error_ne apiUrl env2 s hne)
    | submit ok env2 t =>
      cases ok with
      | true => exact Or.inr ⟨env2, t, rfl⟩
      | false =>
        simp only [step] at hz
        by_cases hv : s.formData.description = "" ∨ s.formData.amount = "" ∨
            s.formData.category = ""
        · rw [handleSubmit_invalid_fst apiUrl t false env2 s hv] at hz
          simp at hz
        · rw [handleSubmit_fail_fst apiUrl t env2 s hv] at hz
          rcases hEe : s.editingExpense with _ | e <;> rw [hEe] at hz <;> simp at hz
    | remove eid c ok env2 =>
      simp only [step] at hz
      rw [handleDelete_fst] at hz
      cases c with
      | false => exact absurd hz hne
      | true =>
        cases ok with
        | false => simp at hz
        | true => exact absurd hz (loadAllData_error_ne apiUrl env2 s hne)

/-- A state with a non-empty error, used to exercise C9. -/
def staleErrorState : AppState :=
  { initState "2025-01-15" with error := "Erro ao carregar despesas" }

/-- Witness for C9: an all-success reload preserves a stale error message,
and a cancel (which empties the error) is admitted by the theorem. -/
theorem C9_error_cleared_only_by_submit_or_cancel_witness :
    (loadAllData "h" envOk staleErrorState).1.error = staleErrorState.error ∧
    ((∃ today, Action.cancel "2025-01-15" = Action.cancel today) ∨
     (∃ env2 today, Action.cancel "2025-01-15" = Action.submit true env2 today)) :=
  ⟨(C9_error_cleared_only_by_submit_or_cancel "h" envOk staleErrorState).1
     (by decide) (by decide) (by decide) (by decide),
   (C9_error_cleared_only_by_submit_or_cancel "h" envOk staleErrorState).2
     (Action.cancel "2025-01-15") (by decide) rfl⟩

/-- A state whose form is filled but whose amount does not parse to a
number. -/
def nanFormState : AppState :=
  { initState "2025-01-15" with
      formData := { description := "Lunch", amount := "abc", category := "Casa",
                    date := "2025-01-15" } }

/-- C10: validation only checks that the amount string is non-empty, not
that it is numeric: the non-empty amount `"abc"` parses to `NaN`, yet the
submission passes validation and issues the create request with
`amount = NaN`. -/
theorem C10_nan_amount_passes_validation :
    nanFormState.formData.amount ≠ "" ∧
    parseFloat nanFormState.formData.amount = JSNum.nan ∧
    (handleSubmit "h" "2025-01-15" true envOk nanFormState).1.error ≠
      "Todos os campos são obrigatórios" ∧
    (handleSubmit "h" "2025-01-15" true envOk nanFormState).2.head? =
      some (Request.post ("h" ++ "/api/expenses")
        { description := "Lunch", amount := JSNum.nan, category := "Casa",
          date := "2025-01-15" }) :=
  ⟨by decide, by decide, by decide, by decide⟩

end FinanceTech
